import Mathlib

/-!
Verification development for the manage-products-pern repository: a CRUD HTTP
service for product records.  The part with a repeatable contract is the
request-validation and error-shaping pipeline declared in
`src/Rest_api_node_server/src/router.ts` with express-validator, plus the
`connectDB` function of `src/Rest_api_node_server/src/server.ts`.

The embedding below models request bodies as JSON-ish values, the
express-validator chains exactly as declared per route (string coercion of the
selected value, validator.js string validators, the raw-value custom check),
and the error-shaping middleware and route handlers.  `handleInputErrors`
(src/middleware.ts) and the product handlers (src/handlers/product.ts) are not
part of the source snapshot; they are modelled from the specification and
marked as such in their doc comments.
-/

/-- JSON-ish values as they arrive in an Express request body.  JavaScript
numbers are modelled as integers: every numeric value appearing in this
repository (prices 0, 50, 300, 399 and ids) is integral.  `undefined` stands
for an absent field. -/
inductive JsonValue where
  | undefined
  | null
  | str (s : String)
  | num (n : Int)
  | bool (b : Bool)
  deriving DecidableEq, Repr

/-- express-validator coerces the selected field value to a string before
running a validator.js string validator: `undefined` and `null` become the
empty string, numbers and booleans their usual printed form. -/
def toStringValue : JsonValue → String
  | .undefined => ""
  | .null => ""
  | .str s => s
  | .num n => toString n
  | .bool b => if b then "true" else "false"

def digitsOnly (cs : List Char) : Bool := cs.all (·.isDigit)

/-- Drop one optional leading sign character. -/
def stripSign : List Char → List Char
  | [] => []
  | c :: t => if c = '+' || c = '-' then t else c :: t

/-- validator.js `isInt` with default options: an optional sign followed by one
or more digits (leading zeroes are allowed by default). -/
def isIntStr (s : String) : Bool :=
  let body := stripSign s.toList
  !body.isEmpty && digitsOnly body

/-- validator.js `isNumeric` with default options: an optional sign, an
optional integer part followed by a dot, then one or more digits
(the regex ^[+-]?([0-9]*[.])?[0-9]+$). -/
def isNumericStr (s : String) : Bool :=
  match (stripSign s.toList).splitOn '.' with
  | [ds] => !ds.isEmpty && digitsOnly ds
  | [ip, fp] => digitsOnly ip && !fp.isEmpty && digitsOnly fp
  | _ => false

/-- validator.js `notEmpty` (default options): the coerced string has nonzero
length. -/
def notEmpty (s : String) : Bool := !s.isEmpty

/-- validator.js `isBoolean` with default (strict) options: exactly one of
"true", "false", "1", "0". -/
def isBooleanStr (s : String) : Bool :=
  s == "true" || s == "false" || s == "1" || s == "0"

/-- Decimal digits to the natural number they denote. -/
def digitsToNat (cs : List Char) : Nat :=
  cs.foldl (fun a c => 10 * a + (c.toNat - 48)) 0

/-- Strip leading and trailing whitespace from a character list. -/
def trimChars (cs : List Char) : List Char :=
  ((cs.dropWhile Char.isWhitespace).reverse.dropWhile Char.isWhitespace).reverse

/-- JavaScript numeric coercion of a string, restricted to the fragment
this repository exercises: a whitespace-only string coerces to 0, an
integer literal to its value, anything else is NaN (`none`).  Fractional
and hexadecimal literals never occur in the inputs of this repository. -/
def jsStringToNumber (s : String) : Option Int :=
  let t := trimChars s.toList
  if t.isEmpty then some 0
  else
    match t with
    | '-' :: rest =>
        if !rest.isEmpty && digitsOnly rest then some (-(digitsToNat rest : Int)) else none
    | '+' :: rest =>
        if !rest.isEmpty && digitsOnly rest then some (digitsToNat rest : Int) else none
    | cs =>
        if digitsOnly cs then some (digitsToNat cs : Int) else none

/-- The custom check `value => value > 0` of the price chain: a JavaScript
relational comparison of the raw value against 0 (`undefined` compares as NaN,
hence false; `null` coerces to 0; booleans to 1/0; strings via numeric
coercion). -/
def jsGtZero : JsonValue → Bool
  | .undefined => false
  | .null => false
  | .num n => decide (0 < n)
  | .bool b => b
  | .str s =>
      match jsStringToNumber s with
      | some n => decide (0 < n)
      | none => false

/-- A field-level validation error as reported by express-validator:
the field path and the human-readable message. -/
structure ValidationError where
  path : String
  msg : String
  deriving DecidableEq, Repr

/-- One validation chain on one field: the checks run in declaration order and
every failing check contributes its own error (express-validator does not bail
out of a chain by default). -/
def checkField (path : String) (v : JsonValue)
    (checks : List ((JsonValue → Bool) × String)) : List ValidationError :=
  checks.filterMap fun ck => if ck.1 v then none else some ⟨path, ck.2⟩

/- The exact messages declared in router.ts. -/

def nameEmptyMsg : String := "El nombre del Producto no puede ir vacio"

def priceNumericMsg : String := "Valor no válido"

def priceEmptyMsg : String := "El precio del Producto no puede ir vacio"

def pricePositiveMsg : String := "Precio no válido"

def availabilityMsg : String := "Valor no válido para disponibilidad"

def idNotValidMsg : String := "ID in not valid"

/-- The fields of a request body that any declared rule ever selects.  A field
not present in the JSON payload is `undefined`. -/
structure Body where
  name : JsonValue
  price : JsonValue
  availability : JsonValue
  deriving DecidableEq, Repr

def emptyBody : Body := ⟨.undefined, .undefined, .undefined⟩

/-- `param("id").isInt().withMessage("ID in not valid")` — path parameters are
always strings. -/
def idParamErrors (id : String) : List ValidationError :=
  if isIntStr id then [] else [⟨"id", idNotValidMsg⟩]

/-- `body("name").notEmpty()` chain, shared by POST and PUT. -/
def nameChainErrors (b : Body) : List ValidationError :=
  checkField "name" b.name [(fun v => notEmpty (toStringValue v), nameEmptyMsg)]

/-- `body("price").isNumeric().notEmpty().custom(value => value > 0)` chain,
shared by POST and PUT. -/
def priceChainErrors (b : Body) : List ValidationError :=
  checkField "price" b.price
    [(fun v => isNumericStr (toStringValue v), priceNumericMsg),
     (fun v => notEmpty (toStringValue v), priceEmptyMsg),
     (jsGtZero, pricePositiveMsg)]

/-- `body("availability").isBoolean()` chain, PUT only. -/
def availabilityChainErrors (b : Body) : List ValidationError :=
  checkField "availability" b.availability
    [(fun v => isBooleanStr (toStringValue v), availabilityMsg)]

/-- Validation pipeline of `router.post("/")`: name chain then price chain,
errors in declaration order. -/
def postValidationErrors (b : Body) : List ValidationError :=
  nameChainErrors b ++ priceChainErrors b

/-- The body rules of `router.put("/:id")`: name, price, availability. -/
def putBodyErrors (b : Body) : List ValidationError :=
  nameChainErrors b ++ priceChainErrors b ++ availabilityChainErrors b

/-- Validation pipeline of `router.put("/:id")`: the id rule then the body
rules, errors in declaration order. -/
def putValidationErrors (id : String) (b : Body) : List ValidationError :=
  idParamErrors id ++ putBodyErrors b

/-- An HTTP error response carrying the aggregated validation errors as the
body `{ errors: [...] }`. -/
structure ErrorResponse where
  status : Nat
  errors : List ValidationError
  deriving DecidableEq, Repr

/-- Outcome of running a validated route: either the error-shaping middleware
answered with an error response, or the route handler ran and produced `a`. -/
inductive RouteResult (α : Type) where
  | validationFailed (r : ErrorResponse)
  | handled (a : α)
  deriving DecidableEq, Repr

/-- Modelled from the spec: `handleInputErrors` (src/middleware.ts is not in
the source snapshot).  Spec §4.2: runs after the validation pipeline; a
non-empty error list is answered with HTTP 400 and body `{ errors: [...] }`
and the handler is never invoked; an empty list passes control to the
handler. -/
def handleInputErrors {α : Type} (errors : List ValidationError) (handler : α) :
    RouteResult α :=
  if errors.isEmpty then .handled handler else .validationFailed ⟨400, errors⟩

/-- `router.get("/:id")`: id rule, middleware, handler. -/
def getByIdRoute {α : Type} (id : String) (handler : α) : RouteResult α :=
  handleInputErrors (idParamErrors id) handler

/-- `router.post("/")`: name and price chains, middleware, handler. -/
def postRoute {α : Type} (b : Body) (handler : α) : RouteResult α :=
  handleInputErrors (postValidationErrors b) handler

/-- `router.put("/:id")`: id rule and the three body chains, middleware,
handler. -/
def putRoute {α : Type} (id : String) (b : Body) (handler : α) : RouteResult α :=
  handleInputErrors (putValidationErrors id b) handler

/-- `router.patch("/:id")`: only the id rule; the request body is received but
no rule selects any of its fields. -/
def patchRoute {α : Type} (id : String) (_b : Body) (handler : α) : RouteResult α :=
  handleInputErrors (idParamErrors id) handler

/-- `router.delete("/:id")`: only the id rule; the request body is received but
no rule selects any of its fields. -/
def deleteRoute {α : Type} (id : String) (_b : Body) (handler : α) : RouteResult α :=
  handleInputErrors (idParamErrors id) handler

/-- A product record as stored (spec §3). -/
structure Product where
  id : Nat
  name : String
  price : Int
  availability : Bool
  deriving DecidableEq, Repr

/-- The persistence collaborator interface `findByPk(id)` over a table of
products. -/
def findByPk (store : List Product) (id : Nat) : Option Product :=
  store.find? (fun p => p.id == id)

/-- Body of a get-by-id response: `{ data: product }` or
`{ error: "Product not found" }`. -/
inductive GetBody where
  | data (p : Product)
  | error (msg : String)
  deriving DecidableEq, Repr

structure GetResponse where
  status : Nat
  body : GetBody
  deriving DecidableEq, Repr

/-- Modelled from the spec: the `getProductById` handler
(src/handlers/product.ts is not in the source snapshot).  Spec §4.3: query by
id; if absent, 404 `{ error: "Product not found" }`; if present, 200
`{ data: product }` and no operation is performed on the store.  The returned
store is the store after the request. -/
def getProductById (store : List Product) (id : Nat) : GetResponse × List Product :=
  match findByPk store id with
  | none => (⟨404, .error "Product not found"⟩, store)
  | some p => (⟨200, .data p⟩, store)

/-- Outcome of `db.authenticate()` as observed by `connectDB`. -/
inductive DbOutcome where
  | ok
  | failed (e : String)
  deriving DecidableEq, Repr

/-- What a run of `connectDB` leaves behind: the console log entries (in
order) and whether `db.sync()` was started. -/
structure ConnectResult where
  log : List String
  synced : Bool
  deriving DecidableEq, Repr

def dbConnectErrorMsg : String := "Hubo un error al conectar la base de datos"

/-- `connectDB` from src/server.ts: `try { await db.authenticate(); db.sync() }
catch (error) { console.log(error); console.log(colors.red.bold("Hubo un error
al conectar la base de datos")) }`.  An `Except.error` result would model a
rejected promise.  Terminal styling applied by colors.red.bold is
presentation-only and omitted; `db.sync()` is started without awaiting, so its
outcome cannot reject `connectDB` and is modelled as the `synced` flag. -/
def connectDB (auth : DbOutcome) : Except String ConnectResult :=
  match auth with
  | .ok => .ok ⟨[], true⟩
  | .failed e => .ok ⟨[e, dbConnectErrorMsg], false⟩


/-! ## Helper lemmas -/

theorem handleInputErrors_of_ne {α : Type} {es : List ValidationError} (hnd : α)
    (h : es ≠ []) : handleInputErrors es hnd = .validationFailed ⟨400, es⟩ := by
  simp [handleInputErrors, List.isEmpty_iff, h]

theorem handleInputErrors_of_eq {α : Type} {es : List ValidationError} (hnd : α)
    (h : es = []) : handleInputErrors es hnd = .handled hnd := by
  simp [handleInputErrors, List.isEmpty_iff, h]

theorem idParamErrors_of_int {id : String} (h : isIntStr id = true) :
    idParamErrors id = [] := by
  simp [idParamErrors, h]

theorem idParamErrors_of_not_int {id : String} (h : isIntStr id = false) :
    idParamErrors id = [⟨"id", idNotValidMsg⟩] := by
  simp [idParamErrors, h]

theorem mem_checkField {path : String} {v : JsonValue}
    {checks : List ((JsonValue → Bool) × String)} {e : ValidationError}
    (h : e ∈ checkField path v checks) :
    e.path = path ∧ e.msg ∈ checks.map Prod.snd := by
  unfold checkField at h
  rw [List.mem_filterMap] at h
  obtain ⟨ck, hck, he⟩ := h
  by_cases hc : ck.1 v = true
  · simp [hc] at he
  · rw [if_neg hc] at he
    obtain rfl := Option.some.inj he
    exact ⟨rfl, List.mem_map_of_mem Prod.snd hck⟩

theorem putBodyErrors_msg_mem {b : Body} {e : ValidationError}
    (h : e ∈ putBodyErrors b) :
    e.msg ∈ [nameEmptyMsg, priceNumericMsg, priceEmptyMsg, pricePositiveMsg,
      availabilityMsg] := by
  unfold putBodyErrors nameChainErrors priceChainErrors availabilityChainErrors at h
  rcases List.mem_append.1 h with h | h
  · rcases List.mem_append.1 h with h | h
    · have := (mem_checkField h).2
      simp at this
      simp [this]
    · have := (mem_checkField h).2
      simp at this
      rcases this with h1 | h1 | h1 <;> simp [h1]
  · have := (mem_checkField h).2
    simp at this
    simp [this]

theorem putBodyErrors_countP_id (b : Body) :
    (putBodyErrors b).countP (fun e => e.msg == idNotValidMsg) = 0 := by
  rw [List.countP_eq_zero]
  intro e he
  have hm := putBodyErrors_msg_mem he
  simp only [List.mem_cons, List.not_mem_nil, or_false] at hm
  rcases hm with h1 | h1 | h1 | h1 | h1 <;>
    simp [h1, nameEmptyMsg, priceNumericMsg, priceEmptyMsg, pricePositiveMsg,
      availabilityMsg, idNotValidMsg]

theorem nameChainErrors_of_ne {n : String} {p a : JsonValue} (h : n ≠ "") :
    nameChainErrors ⟨.str n, p, a⟩ = [] := by
  have : n.isEmpty = false := by
    rcases hb : n.isEmpty with _ | _
    · rfl
    · exact absurd ((String.isEmpty_iff n).1 hb) h
  simp [nameChainErrors, checkField, toStringValue, notEmpty, this]

theorem availabilityChainErrors_bool {n p : JsonValue} (av : Bool) :
    availabilityChainErrors ⟨n, p, .bool av⟩ = [] := by
  cases av <;> rfl

theorem priceChainErrors_zero {n a : JsonValue} :
    priceChainErrors ⟨n, .num 0, a⟩ = [⟨"price", pricePositiveMsg⟩] := rfl

theorem priceChainErrors_hola {n a : JsonValue} :
    priceChainErrors ⟨n, .str "hola", a⟩ =
      [⟨"price", priceNumericMsg⟩, ⟨"price", pricePositiveMsg⟩] := rfl

/-! ## Claim theorems -/

/-- C1: For every route with validation (GET /:id, POST /, PUT /:id,
PATCH /:id, DELETE /:id), if the validation pipeline produces a non-empty
error list the request is answered with HTTP 400 and body { errors: [...] }
and the route handler is never invoked (the result does not depend on the
handler); if the error list is empty the route handler is invoked. -/
theorem validation_gate_all_routes {α : Type} (id : String) (b : Body) (hnd : α) :
    ((idParamErrors id ≠ [] →
        getByIdRoute id hnd = .validationFailed ⟨400, idParamErrors id⟩ ∧
        patchRoute id b hnd = .validationFailed ⟨400, idParamErrors id⟩ ∧
        deleteRoute id b hnd = .validationFailed ⟨400, idParamErrors id⟩) ∧
      (idParamErrors id = [] →
        getByIdRoute id hnd = .handled hnd ∧
        patchRoute id b hnd = .handled hnd ∧
        deleteRoute id b hnd = .handled hnd)) ∧
    ((postValidationErrors b ≠ [] →
        postRoute b hnd = .validationFailed ⟨400, postValidationErrors b⟩) ∧
      (postValidationErrors b = [] → postRoute b hnd = .handled hnd)) ∧
    ((putValidationErrors id b ≠ [] →
        putRoute id b hnd = .validationFailed ⟨400, putValidationErrors id b⟩) ∧
      (putValidationErrors id b = [] → putRoute id b hnd = .handled hnd)) :=
  ⟨⟨fun h => ⟨handleInputErrors_of_ne hnd h, handleInputErrors_of_ne hnd h,
      handleInputErrors_of_ne hnd h⟩,
    fun h => ⟨handleInputErrors_of_eq hnd h, handleInputErrors_of_eq hnd h,
      handleInputErrors_of_eq hnd h⟩⟩,
   ⟨fun h => handleInputErrors_of_ne hnd h, fun h => handleInputErrors_of_eq hnd h⟩,
   ⟨fun h => handleInputErrors_of_ne hnd h, fun h => handleInputErrors_of_eq hnd h⟩⟩

/-- C1 witness: concrete instances of the gate — GET /abc is answered 400 with
the id error, and POST with the valid body of the acceptance test reaches the
handler. -/
theorem validation_gate_all_routes_witness :
    idParamErrors "abc" ≠ [] ∧
    getByIdRoute "abc" (0 : Nat) = .validationFailed ⟨400, idParamErrors "abc"⟩ ∧
    postValidationErrors ⟨.str "Mouse -Testing", .num 50, .undefined⟩ = [] ∧
    postRoute ⟨.str "Mouse -Testing", .num 50, .undefined⟩ (0 : Nat) = .handled 0 := by
  refine ⟨by decide, ?_, by decide, ?_⟩
  · exact ((validation_gate_all_routes "abc" emptyBody (0 : Nat)).1.1 (by decide)).1
  · exact (validation_gate_all_routes "1"
      ⟨.str "Mouse -Testing", .num 50, .undefined⟩ (0 : Nat)).2.1.2 (by decide)

/-- C2 counterexample: a PUT request whose path id is not an integer and whose
body is empty is answered 400, but its error list has six entries (the id
error followed by the five body errors), not exactly one. -/
theorem put_invalid_id_not_single_error :
    putRoute "not-valid-url" emptyBody (0 : Nat) =
      .validationFailed ⟨400,
        [⟨"id", idNotValidMsg⟩, ⟨"name", nameEmptyMsg⟩, ⟨"price", priceNumericMsg⟩,
         ⟨"price", priceEmptyMsg⟩, ⟨"price", pricePositiveMsg⟩,
         ⟨"availability", availabilityMsg⟩]⟩ ∧
    (putValidationErrors "not-valid-url" emptyBody).length ≠ 1 := by
  constructor
  · rfl
  · decide

/-- C2 amended: for every request whose path id is not an integer, GET /:id,
PATCH /:id and DELETE /:id are answered 400 with exactly the one error
"ID in not valid"; PUT /:id is answered 400 with that error first, exactly one
error of the list carries the message "ID in not valid", and the list is
exactly that one error whenever the body passes all body rules. -/
theorem invalid_id_yields_id_error {α : Type} (id : String) (b : Body) (hnd : α)
    (h : isIntStr id = false) :
    getByIdRoute id hnd = .validationFailed ⟨400, [⟨"id", idNotValidMsg⟩]⟩ ∧
    patchRoute id b hnd = .validationFailed ⟨400, [⟨"id", idNotValidMsg⟩]⟩ ∧
    deleteRoute id b hnd = .validationFailed ⟨400, [⟨"id", idNotValidMsg⟩]⟩ ∧
    putRoute id b hnd =
      .validationFailed ⟨400, ⟨"id", idNotValidMsg⟩ :: putBodyErrors b⟩ ∧
    (putValidationErrors id b).countP (fun e => e.msg == idNotValidMsg) = 1 ∧
    (putBodyErrors b = [] →
      putRoute id b hnd = .validationFailed ⟨400, [⟨"id", idNotValidMsg⟩]⟩) := by
  have hid := idParamErrors_of_not_int h
  have hput : putValidationErrors id b = ⟨"id", idNotValidMsg⟩ :: putBodyErrors b := by
    simp [putValidationErrors, hid]
  refine ⟨?_, ?_, ?_, ?_, ?_, ?_⟩
  · rw [getByIdRoute, hid]; exact handleInputErrors_of_ne hnd (by simp)
  · rw [patchRoute, hid]; exact handleInputErrors_of_ne hnd (by simp)
  · rw [deleteRoute, hid]; exact handleInputErrors_of_ne hnd (by simp)
  · rw [putRoute, hput]; exact handleInputErrors_of_ne hnd (by simp)
  · rw [hput, List.countP_cons]
    simp [putBodyErrors_countP_id]
  · intro hb
    rw [putRoute, hput, hb]
    exact handleInputErrors_of_ne hnd (by simp)

/-- C2 witness: at id "abc" with the valid update body of the acceptance test,
PUT is answered 400 with exactly the single error "ID in not valid", and so is
GET. -/
theorem invalid_id_yields_id_error_witness :
    getByIdRoute "abc" (0 : Nat) = .validationFailed ⟨400, [⟨"id", idNotValidMsg⟩]⟩ ∧
    putRoute "abc" ⟨.str "Monitor Nuevo", .num 300, .bool true⟩ (0 : Nat) =
      .validationFailed ⟨400, [⟨"id", idNotValidMsg⟩]⟩ := by
  have h := invalid_id_yields_id_error "abc"
    ⟨.str "Monitor Nuevo", .num 300, .bool true⟩ (0 : Nat) (by decide)
  exact ⟨h.1, h.2.2.2.2.2 (by decide)⟩

/-- C3: a POST request with an empty body is answered 400 with exactly the 4
validation errors name-empty, price-not-numeric, price-empty and
price-not-positive, each evaluated against the absent (undefined) value. -/
theorem post_empty_body_four_errors {α : Type} (hnd : α) :
    postRoute emptyBody hnd =
      .validationFailed ⟨400,
        [⟨"name", nameEmptyMsg⟩, ⟨"price", priceNumericMsg⟩,
         ⟨"price", priceEmptyMsg⟩, ⟨"price", pricePositiveMsg⟩]⟩ ∧
    (postValidationErrors emptyBody).length = 4 := by
  exact ⟨rfl, by decide⟩

/-- C3 witness: the theorem at a concrete handler. -/
theorem post_empty_body_four_errors_witness :
    postRoute emptyBody (0 : Nat) =
      .validationFailed ⟨400,
        [⟨"name", nameEmptyMsg⟩, ⟨"price", priceNumericMsg⟩,
         ⟨"price", priceEmptyMsg⟩, ⟨"price", pricePositiveMsg⟩]⟩ ∧
    (postValidationErrors emptyBody).length = 4 :=
  post_empty_body_four_errors (0 : Nat)

/-- C4: a PUT request with an integer path id and an empty body is answered
400 with exactly the 5 validation errors name-empty, price-not-numeric,
price-empty, price-not-positive and availability-not-boolean.  (Whether the id
refers to an existing product is irrelevant: the middleware answers before the
handler, which is the only component that consults the store.) -/
theorem put_empty_body_five_errors {α : Type} (id : String) (hnd : α)
    (h : isIntStr id = true) :
    putRoute id emptyBody hnd =
      .validationFailed ⟨400,
        [⟨"name", nameEmptyMsg⟩, ⟨"price", priceNumericMsg⟩,
         ⟨"price", priceEmptyMsg⟩, ⟨"price", pricePositiveMsg⟩,
         ⟨"availability", availabilityMsg⟩]⟩ ∧
    (putValidationErrors id emptyBody).length = 5 := by
  have hid := idParamErrors_of_int h
  have hput : putValidationErrors id emptyBody =
      [⟨"name", nameEmptyMsg⟩, ⟨"price", priceNumericMsg⟩,
       ⟨"price", priceEmptyMsg⟩, ⟨"price", pricePositiveMsg⟩,
       ⟨"availability", availabilityMsg⟩] := by
    rw [putValidationErrors, hid]; rfl
  constructor
  · rw [putRoute, hput]
    exact handleInputErrors_of_ne hnd (by simp)
  · rw [hput]; rfl

/-- C4 witness: the theorem at id "1", the id used by the acceptance test. -/
theorem put_empty_body_five_errors_witness :
    putRoute "1" emptyBody (0 : Nat) =
      .validationFailed ⟨400,
        [⟨"name", nameEmptyMsg⟩, ⟨"price", priceNumericMsg⟩,
         ⟨"price", priceEmptyMsg⟩, ⟨"price", pricePositiveMsg⟩,
         ⟨"availability", availabilityMsg⟩]⟩ ∧
    (putValidationErrors "1" emptyBody).length = 5 :=
  put_empty_body_five_errors "1" (0 : Nat) (by decide)

/-- C5: a POST request with a non-empty name and price 0, and a PUT request
with an integer id, a non-empty name, a boolean availability and price 0, are
each answered 400 with exactly one validation error: the one produced by the
price > 0 check, carrying the localized message "Precio no válido" ("invalid
price"). -/
theorem price_zero_single_error {α : Type} (id n : String) (av : Bool) (hnd : α)
    (hn : n ≠ "") (hid : isIntStr id = true) :
    postRoute ⟨.str n, .num 0, .undefined⟩ hnd =
      .validationFailed ⟨400, [⟨"price", "Precio no válido"⟩]⟩ ∧
    putRoute id ⟨.str n, .num 0, .bool av⟩ hnd =
      .validationFailed ⟨400, [⟨"price", "Precio no válido"⟩]⟩ := by
  have hpost : postValidationErrors ⟨.str n, .num 0, .undefined⟩ =
      [⟨"price", pricePositiveMsg⟩] := by
    rw [postValidationErrors, nameChainErrors_of_ne hn, priceChainErrors_zero]
    rfl
  have hput : putValidationErrors id ⟨.str n, .num 0, .bool av⟩ =
      [⟨"price", pricePositiveMsg⟩] := by
    rw [putValidationErrors, idParamErrors_of_int hid, putBodyErrors,
      nameChainErrors_of_ne hn, priceChainErrors_zero, availabilityChainErrors_bool]
    rfl
  constructor
  · rw [postRoute, hpost]
    exact handleInputErrors_of_ne hnd (by simp)
  · rw [putRoute, hput]
    exact handleInputErrors_of_ne hnd (by simp)

/-- C5 witness: the theorem at the inputs of the acceptance tests
(name "Monitor curvo" for POST; id "1", name "Monitor Nuevo",
availability true for PUT). -/
theorem price_zero_single_error_witness :
    postRoute ⟨.str "Monitor curvo", .num 0, .undefined⟩ (0 : Nat) =
      .validationFailed ⟨400, [⟨"price", "Precio no válido"⟩]⟩ ∧
    putRoute "1" ⟨.str "Monitor curvo", .num 0, .bool true⟩ (0 : Nat) =
      .validationFailed ⟨400, [⟨"price", "Precio no válido"⟩]⟩ :=
  price_zero_single_error "1" "Monitor curvo" true (0 : Nat) (by decide) (by decide)

/-- C6: a POST request with a non-empty name and the string "hola" as price is
answered 400 with exactly two validation errors — the numeric-type check and
the strictly-positive check fail — while the non-empty check on price
passes. -/
theorem post_price_hola_two_errors {α : Type} (n : String) (hnd : α)
    (hn : n ≠ "") :
    postRoute ⟨.str n, .str "hola", .undefined⟩ hnd =
      .validationFailed ⟨400,
        [⟨"price", priceNumericMsg⟩, ⟨"price", pricePositiveMsg⟩]⟩ ∧
    (postValidationErrors ⟨.str n, .str "hola", .undefined⟩).length = 2 ∧
    notEmpty (toStringValue (JsonValue.str "hola")) = true := by
  have hpost : postValidationErrors ⟨.str n, .str "hola", .undefined⟩ =
      [⟨"price", priceNumericMsg⟩, ⟨"price", pricePositiveMsg⟩] := by
    rw [postValidationErrors, nameChainErrors_of_ne hn, priceChainErrors_hola]
    rfl
  refine ⟨?_, by rw [hpost]; rfl, by decide⟩
  rw [postRoute, hpost]
  exact handleInputErrors_of_ne hnd (by simp)

/-- C6 witness: the theorem at the body of the acceptance test
{ name: "Monitor curvo", price: "hola" }. -/
theorem post_price_hola_two_errors_witness :
    postRoute ⟨.str "Monitor curvo", .str "hola", .undefined⟩ (0 : Nat) =
      .validationFailed ⟨400,
        [⟨"price", priceNumericMsg⟩, ⟨"price", pricePositiveMsg⟩]⟩ ∧
    (postValidationErrors ⟨.str "Monitor curvo", .str "hola", .undefined⟩).length = 2 ∧
    notEmpty (toStringValue (JsonValue.str "hola")) = true :=
  post_price_hola_two_errors "Monitor curvo" (0 : Nat) (by decide)

/-- C7 counterexample: the four POST rules, failing together on the empty
body, produce the Spanish messages declared in router.ts — not the English
strings "name required", "invalid value", "price required", "invalid
price". -/
theorem post_messages_not_english :
    (postValidationErrors emptyBody).map ValidationError.msg =
      ["El nombre del Producto no puede ir vacio", "Valor no válido",
       "El precio del Producto no puede ir vacio", "Precio no válido"] ∧
    (postValidationErrors emptyBody).map ValidationError.msg ≠
      ["name required", "invalid value", "price required", "invalid price"] := by
  constructor
  · rfl
  · decide

/-- C7 amended: on POST, a failing name-empty check contributes the error
"El nombre del Producto no puede ir vacio", a failing numeric-type check on
price "Valor no válido", a failing non-empty check on price "El precio del
Producto no puede ir vacio", and a failing strictly-positive check on price
"Precio no válido" — the localized forms of "name required", "invalid value",
"price required" and "invalid price". -/
theorem post_failure_messages (b : Body) :
    (notEmpty (toStringValue b.name) = false →
      (⟨"name", "El nombre del Producto no puede ir vacio"⟩ : ValidationError) ∈
        postValidationErrors b) ∧
    (isNumericStr (toStringValue b.price) = false →
      (⟨"price", "Valor no válido"⟩ : ValidationError) ∈ postValidationErrors b) ∧
    (notEmpty (toStringValue b.price) = false →
      (⟨"price", "El precio del Producto no puede ir vacio"⟩ : ValidationError) ∈
        postValidationErrors b) ∧
    (jsGtZero b.price = false →
      (⟨"price", "Precio no válido"⟩ : ValidationError) ∈ postValidationErrors b) := by
  refine ⟨fun h => ?_, fun h => ?_, fun h => ?_, fun h => ?_⟩
  · apply List.mem_append_left
    rw [nameChainErrors, checkField]
    simp [h, nameEmptyMsg]
  · apply List.mem_append_right
    rw [priceChainErrors, checkField]
    simp [h, priceNumericMsg]
  · apply List.mem_append_right
    rw [priceChainErrors, checkField]
    simp [h, priceEmptyMsg]
  · apply List.mem_append_right
    rw [priceChainErrors, checkField]
    simp [h, pricePositiveMsg]

/-- C7 witness: on the empty body all four checks fail and all four localized
messages appear. -/
theorem post_failure_messages_witness :
    (⟨"name", "El nombre del Producto no puede ir vacio"⟩ : ValidationError) ∈
      postValidationErrors emptyBody ∧
    (⟨"price", "Valor no válido"⟩ : ValidationError) ∈ postValidationErrors emptyBody ∧
    (⟨"price", "El precio del Producto no puede ir vacio"⟩ : ValidationError) ∈
      postValidationErrors emptyBody ∧
    (⟨"price", "Precio no válido"⟩ : ValidationError) ∈ postValidationErrors emptyBody := by
  have h := post_failure_messages emptyBody
  exact ⟨h.1 (by decide), h.2.1 (by decide), h.2.2.1 (by decide), h.2.2.2 (by decide)⟩

/-- C8: GET /:id of an existing product answers 200 with that product as
`data`, leaves the store unchanged, and hence a second GET with no intervening
write returns the identical response. -/
theorem get_by_id_idempotent (store : List Product) (id : Nat) (p : Product)
    (h : findByPk store id = some p) :
    (getProductById store id).1 = ⟨200, .data p⟩ ∧
    (getProductById store id).2 = store ∧
    getProductById (getProductById store id).2 id = getProductById store id := by
  refine ⟨?_, ?_, ?_⟩ <;> simp [getProductById, h]

/-- C8 witness: the theorem on a one-product store at id 1. -/
theorem get_by_id_idempotent_witness :
    (getProductById [⟨1, "Monitor curvo", 300, true⟩] 1).1 =
      ⟨200, .data ⟨1, "Monitor curvo", 300, true⟩⟩ ∧
    (getProductById [⟨1, "Monitor curvo", 300, true⟩] 1).2 =
      [⟨1, "Monitor curvo", 300, true⟩] ∧
    getProductById (getProductById [⟨1, "Monitor curvo", 300, true⟩] 1).2 1 =
      getProductById [⟨1, "Monitor curvo", 300, true⟩] 1 :=
  get_by_id_idempotent [⟨1, "Monitor curvo", 300, true⟩] 1
    ⟨1, "Monitor curvo", 300, true⟩ (by decide)

/-- C9: PATCH /:id and DELETE /:id validate only the path id: whatever the
request body, an integer id makes the pipeline produce no error and the
handler run, and the outcome never depends on the body. -/
theorem patch_delete_ignore_body {α : Type} (id : String) (b b2 : Body) (hnd : α)
    (h : isIntStr id = true) :
    idParamErrors id = [] ∧
    patchRoute id b hnd = .handled hnd ∧
    deleteRoute id b hnd = .handled hnd ∧
    patchRoute id b hnd = patchRoute id b2 hnd ∧
    deleteRoute id b hnd = deleteRoute id b2 hnd := by
  have hid := idParamErrors_of_int h
  exact ⟨hid, handleInputErrors_of_eq hnd hid, handleInputErrors_of_eq hnd hid,
    rfl, rfl⟩

/-- C9 witness: the theorem at id "1" against the empty body and a body where
every field is set to an invalid value. -/
theorem patch_delete_ignore_body_witness :
    idParamErrors "1" = [] ∧
    patchRoute "1" emptyBody (0 : Nat) = .handled 0 ∧
    deleteRoute "1" emptyBody (0 : Nat) = .handled 0 ∧
    patchRoute "1" emptyBody (0 : Nat) =
      patchRoute "1" ⟨.str "", .str "hola", .num 7⟩ (0 : Nat) ∧
    deleteRoute "1" emptyBody (0 : Nat) =
      deleteRoute "1" ⟨.str "", .str "hola", .num 7⟩ (0 : Nat) :=
  patch_delete_ignore_body "1" emptyBody ⟨.str "", .str "hola", .num 7⟩ (0 : Nat)
    (by decide)

/-- C10: connectDB never rejects — for either outcome of db.authenticate it
resolves normally — and when authentication fails the error is caught and
"Hubo un error al conectar la base de datos" is logged after the error
itself. -/
theorem connectDB_never_rejects (a : DbOutcome) :
    (∃ r : ConnectResult, connectDB a = .ok r) ∧
    (∀ e : String, a = .failed e →
      connectDB a = .ok ⟨[e, "Hubo un error al conectar la base de datos"], false⟩) := by
  cases a with
  | ok => exact ⟨⟨⟨[], true⟩, rfl⟩, fun e he => by cases he⟩
  | failed e =>
      exact ⟨⟨⟨[e, dbConnectErrorMsg], false⟩, rfl⟩,
        fun e2 he => by cases he; rfl⟩

/-- C10 witness: the theorem at a failing authentication outcome. -/
theorem connectDB_never_rejects_witness :
    (∃ r : ConnectResult, connectDB (.failed "boom") = .ok r) ∧
    connectDB (.failed "boom") =
      .ok ⟨["boom", "Hubo un error al conectar la base de datos"], false⟩ := by
  have h := connectDB_never_rejects (.failed "boom")
  exact ⟨h.1, h.2 "boom" rfl⟩
